import Mathlib

/-!
Shallow embedding of the activity-monitor core of the `timedelta` repository
(`src/time32.py`, the Windows activity/window library, and `src/winloop.py`,
the 5-second poll loop), together with theorems settling the spec's claims.

Python floats are modelled as exact rationals (`ℚ`), Python strings as Lean
`String`, and each WinAPI / psutil call is modelled by the value it returns,
threaded in explicitly through small environment records.
-/

/-- Whitespace characters stripped by Python's `str.strip()` (ASCII range). -/
def pyIsSpace (c : Char) : Bool :=
  c = ' ' || c = '\t' || c = '\n' || c = '\r' || c = '\x0b' || c = '\x0c'

/-- Python `s.strip()`: drop leading and trailing whitespace. -/
def pyStrip (s : String) : String :=
  String.mk (((s.data.dropWhile pyIsSpace).reverse.dropWhile pyIsSpace).reverse)

/-- Python `s.split("\\")` on the character list: split on every backslash,
keeping empty chunks, so the result is always non-empty. -/
def pySplitBS : List Char → List (List Char)
  | [] => [[]]
  | c :: rest =>
    let tailSplit := pySplitBS rest
    if c = '\\' then [] :: tailSplit
    else
      match tailSplit with
      | [] => [[c]]
      | g :: gs => (c :: g) :: gs

/-- Python `path.split("\\")[-1]`: the component after the last backslash. -/
def lastComponent (path : String) : String :=
  String.mk ((pySplitBS path.data).getLastD [])

/-! ### Input-idle probe (`time32.get_idle_seconds`) -/

/-- Return values of the WinAPI calls made by `get_idle_seconds`:
`queryOk` is the boolean result of `GetLastInputInfo`, `dwTime` the
32-bit `LASTINPUTINFO.dwTime` it filled in, and `tickNow` the value of
`GetTickCount` (a `c_int` in ctypes, hence possibly negative). -/
structure LastInputEnv where
  queryOk : Bool
  dwTime : Nat
  tickNow : Int
deriving DecidableEq

/-- Embedding of `time32.get_idle_seconds`:
returns `-1.0` when `GetLastInputInfo` fails, otherwise
`((tick_now - lii.dwTime) & 0xFFFFFFFF) / 1000.0`.  Python's masking of an
arbitrary int with `& 0xFFFFFFFF` equals Euclidean `% 2^32`. -/
def get_idle_seconds (env : LastInputEnv) : ℚ :=
  if !env.queryOk then -1
  else
    let elapsed_ms : Int := (env.tickNow - (env.dwTime : Int)) % (2 ^ 32)
    (elapsed_ms : ℚ) / 1000

/-! ### Resource sampler (`time32.get_cpu_percent`, `time32.get_net_rates`) -/

/-- Embedding of `time32.get_cpu_percent`.  The two `psutil.cpu_percent(None)`
calls are modelled by the values they return: the first (baseline) reading is
discarded and the second is returned unchanged — the function applies no
clamping or other transformation. -/
def get_cpu_percent (baseline_reading sample_reading : ℚ) : ℚ :=
  let _ := baseline_reading
  sample_reading

/-- One `psutil.net_io_counters()` snapshot: cumulative byte counters,
non-negative integers. -/
structure NetCounters where
  bytes_sent : Nat
  bytes_recv : Nat
deriving DecidableEq

/-- Embedding of `time32.get_net_rates`: raw counter deltas divided by the
sample window, with no clamping. -/
def get_net_rates (c0 c1 : NetCounters) (sample_seconds : ℚ) : ℚ × ℚ :=
  (((c1.bytes_sent : ℚ) - (c0.bytes_sent : ℚ)) / sample_seconds,
   ((c1.bytes_recv : ℚ) - (c0.bytes_recv : ℚ)) / sample_seconds)

/-! ### Foreground probe (`time32.get_foreground_title`) -/

/-- Return values of the WinAPI calls made by `get_foreground_title`:
`hwnd` is the result of `GetForegroundWindow` (`none` models a NULL handle),
`titleLength` the result of `GetWindowTextLengthW`, and `titleText` the
buffer contents after `GetWindowTextW`. -/
structure ForegroundEnv where
  hwnd : Option Nat
  titleLength : Int
  titleText : String
deriving DecidableEq

/-- Embedding of `time32.get_foreground_title`: empty string when there is no
foreground window or the reported title length is `<= 0`, otherwise the
buffer contents, verbatim. -/
def get_foreground_title (env : ForegroundEnv) : String :=
  match env.hwnd with
  | none => ""
  | some _ => if env.titleLength ≤ 0 then "" else env.titleText

/-! ### Snapshot builder (`time32.build_activity_snapshot`) -/

/-- The snapshot dict built by `build_activity_snapshot`. -/
structure ActivitySnapshot where
  idle_seconds : ℚ
  foreground_title : String
  cpu_percent : ℚ
  net_up_bps : ℚ
  net_down_bps : ℚ
  timestamp : ℚ
deriving DecidableEq

/-- Python's `s or fallback` for strings: the fallback exactly when `s` is
the empty string (the only falsy string). -/
def pyOrElse (s fallback : String) : String :=
  if s = "" then fallback else s

/-- The placeholder substituted for an empty foreground title. -/
def noTitlePlaceholder : String := "(no title / none)"

/-- Embedding of `time32.build_activity_snapshot`.  The psutil readings, the
WinAPI environments and the `time.time()` reading are passed in explicitly. -/
def build_activity_snapshot (cpuBase cpuSample : ℚ) (c0 c1 : NetCounters)
    (net_seconds : ℚ) (lenv : LastInputEnv) (fenv : ForegroundEnv)
    (now : ℚ) : ActivitySnapshot :=
  let cpu := get_cpu_percent cpuBase cpuSample
  let rates := get_net_rates c0 c1 net_seconds
  let idle := get_idle_seconds lenv
  let title := pyOrElse (get_foreground_title fenv) noTitlePlaceholder
  ⟨idle, title, cpu, rates.1, rates.2, now⟩

/-! ### Window enumeration (`time32.get_process_name`, `time32.list_visible_windows`) -/

/-- One top-level window as reported by `EnumWindows`: its handle, the result
of `IsWindowVisible`, the title read by `get_window_title`, and the pid
reported by `GetWindowThreadProcessId`. -/
structure WinState where
  hwnd : Nat
  visible : Bool
  title : String
  pid : Nat
deriving DecidableEq

/-- The OS state visible to one enumeration pass: the windows `EnumWindows`
reports, in enumeration order, whether `QueryFullProcessImageNameW` exists in
kernel32, and the results of `OpenProcess` (with `none` modelling a NULL
handle) and of the image-name query (with `none` modelling a failed call). -/
structure OsEnv where
  windows : List WinState
  hasQueryFullName : Bool
  openProcess : Nat → Option Nat
  queryImage : Nat → Option String

/-- Embedding of `time32.get_process_name`: empty string when the query API is
absent, `OpenProcess` fails, or the image-name query fails; otherwise the
last backslash-separated component of the returned path. -/
def get_process_name (env : OsEnv) (pid : Nat) : String :=
  if !env.hasQueryFullName then ""
  else
    match env.openProcess pid with
    | none => ""
    | some hProcess =>
      match env.queryImage hProcess with
      | some path => lastComponent path
      | none => ""

/-- Handle lifecycle events performed by `get_process_name`. -/
inductive HEvent where
  | opened (h : Nat)
  | closed (h : Nat)
deriving DecidableEq

/-- Embedding of `time32.get_process_name` instrumented with the handle
events it performs: the body of the `try` computes the result, and the
`finally` block closes the handle on every path on which `OpenProcess`
returned one. -/
def get_process_name_events (env : OsEnv) (pid : Nat) : String × List HEvent :=
  if !env.hasQueryFullName then ("", [])
  else
    match env.openProcess pid with
    | none => ("", [])
    | some hProcess =>
      let body :=
        match env.queryImage hProcess with
        | some path => lastComponent path
        | none => ""
      (body, [HEvent.opened hProcess, HEvent.closed hProcess])

/-- The record appended for a surviving window:
`(hwnd, title, pid, process_name)`. -/
def mkRecord (env : OsEnv) (w : WinState) : Nat × String × Nat × String :=
  (w.hwnd, w.title, w.pid, get_process_name env w.pid)

/-- Embedding of `time32.list_visible_windows`: the callback keeps a window
exactly when `IsWindowVisible` holds and the stripped title is non-empty, and
always returns `True`, so the enumeration visits every window in order. -/
def list_visible_windows (env : OsEnv) : List (Nat × String × Nat × String) :=
  env.windows.filterMap fun w =>
    if w.visible = true ∧ pyStrip w.title ≠ "" then some (mkRecord env w)
    else none

/-! ### Poll loop (`winloop.main`) -/

/-- The fixed poll interval of `winloop.py`. -/
def POLL_SECONDS : ℚ := 5

/-- The sleep `winloop.main` performs at the end of one tick, as a function of
the time the tick's sampling and enumeration work consumed: the loop body
runs `time.sleep(POLL_SECONDS)` unconditionally, so the sleep does not depend
on the work time. -/
def tick_sleep (workSeconds : ℚ) : ℚ :=
  let _ := workSeconds
  POLL_SECONDS

/-- Wall-clock duration of one tick of `winloop.main`: the sampling and
enumeration work followed by the unconditional sleep. -/
def tick_duration (workSeconds : ℚ) : ℚ :=
  workSeconds + tick_sleep workSeconds

/-! ### Claims about the input-idle probe -/

/-- C2: whenever the last-input query succeeds, `get_idle_seconds` equals
`((now - last) mod 2^32) / 1000`, which is non-negative; in particular
`last = 1000, now = 1500` gives `0.5`, and `last = 0xFFFFFFF0,
now = 0x00000010` (a wrapped counter) gives `0.032`. -/
theorem idle_seconds_modular (env : LastInputEnv) (h : env.queryOk = true) :
    get_idle_seconds env
      = (((env.tickNow - (env.dwTime : Int)) % (2 ^ 32) : Int) : ℚ) / 1000 ∧
    0 ≤ get_idle_seconds env ∧
    get_idle_seconds ⟨true, 1000, 1500⟩ = 1 / 2 ∧
    get_idle_seconds ⟨true, 0xFFFFFFF0, 0x00000010⟩ = 32 / 1000 := by
  have heq : get_idle_seconds env
      = (((env.tickNow - (env.dwTime : Int)) % (2 ^ 32) : Int) : ℚ) / 1000 := by
    simp [get_idle_seconds, h]
  refine ⟨heq, ?_, by norm_num [get_idle_seconds], by norm_num [get_idle_seconds]⟩
  rw [heq]
  apply div_nonneg _ (by norm_num)
  exact_mod_cast Int.emod_nonneg _ (by norm_num)

/-- Witness for `idle_seconds_modular` at a concrete wrapped pair. -/
theorem idle_seconds_modular_witness :
    (LastInputEnv.queryOk ⟨true, 0xFFFFFFF0, 0x00000010⟩ = true) ∧
    get_idle_seconds ⟨true, 0xFFFFFFF0, 0x00000010⟩
      = ((((0x00000010 : Int) - ((0xFFFFFFF0 : Nat) : Int)) % (2 ^ 32) : Int) : ℚ) / 1000 ∧
    0 ≤ get_idle_seconds ⟨true, 0xFFFFFFF0, 0x00000010⟩ :=
  ⟨rfl, (idle_seconds_modular ⟨true, 0xFFFFFFF0, 0x00000010⟩ rfl).1,
    (idle_seconds_modular ⟨true, 0xFFFFFFF0, 0x00000010⟩ rfl).2.1⟩

/-- C7: `get_idle_seconds` returns exactly the sentinel `-1` when the
last-input query fails, a non-negative duration when it succeeds, and nothing
else — the sentinel is negative, so it is never conflated with a genuine
zero reading. -/
theorem idle_seconds_sentinel (env : LastInputEnv) :
    (env.queryOk = false → get_idle_seconds env = -1) ∧
    (env.queryOk = true → 0 ≤ get_idle_seconds env) ∧
    (get_idle_seconds env = -1 ∨ 0 ≤ get_idle_seconds env) := by
  have hfail : env.queryOk = false → get_idle_seconds env = -1 := by
    intro h; simp [get_idle_seconds, h]
  have hok : env.queryOk = true → 0 ≤ get_idle_seconds env := by
    intro h
    have heq : get_idle_seconds env
        = (((env.tickNow - (env.dwTime : Int)) % (2 ^ 32) : Int) : ℚ) / 1000 := by
      simp [get_idle_seconds, h]
    rw [heq]
    apply div_nonneg _ (by norm_num)
    exact_mod_cast Int.emod_nonneg _ (by norm_num)
  refine ⟨hfail, hok, ?_⟩
  cases h : env.queryOk with
  | false => exact Or.inl (hfail h)
  | true => exact Or.inr (hok h)

/-- Witness for `idle_seconds_sentinel`: a failed query yields the sentinel. -/
theorem idle_seconds_sentinel_witness :
    get_idle_seconds ⟨false, 7, 9⟩ = -1 :=
  (idle_seconds_sentinel ⟨false, 7, 9⟩).1 rfl

/-! ### Claims about the resource sampler -/

/-- C1, as stated, is false: `get_net_rates` applies no clamp, so a counter
decrease between the two samples yields negative components. -/
theorem net_rates_negative_cex :
    (get_net_rates ⟨1000, 1000⟩ ⟨0, 0⟩ 1).1 < 0 ∧
    (get_net_rates ⟨1000, 1000⟩ ⟨0, 0⟩ 1).2 < 0 := by
  norm_num [get_net_rates]

/-- C1 (amended): `get_net_rates` returns the raw counter deltas divided by
the sample window, with no clamping; both components are non-negative
whenever the cumulative counters do not decrease between the two samples and
the window is positive. -/
theorem net_rates_nonneg_of_monotone (c0 c1 : NetCounters) (s : ℚ) (hs : 0 < s)
    (hup : c0.bytes_sent ≤ c1.bytes_sent) (hdn : c0.bytes_recv ≤ c1.bytes_recv) :
    (get_net_rates c0 c1 s).1 = ((c1.bytes_sent : ℚ) - (c0.bytes_sent : ℚ)) / s ∧
    (get_net_rates c0 c1 s).2 = ((c1.bytes_recv : ℚ) - (c0.bytes_recv : ℚ)) / s ∧
    0 ≤ (get_net_rates c0 c1 s).1 ∧ 0 ≤ (get_net_rates c0 c1 s).2 := by
  refine ⟨rfl, rfl, ?_, ?_⟩
  · apply div_nonneg _ hs.le
    rw [sub_nonneg]
    exact_mod_cast hup
  · apply div_nonneg _ hs.le
    rw [sub_nonneg]
    exact_mod_cast hdn

/-- Witness for `net_rates_nonneg_of_monotone` at concrete counters. -/
theorem net_rates_nonneg_of_monotone_witness :
    (0 : ℚ) < 2 ∧ (100 : Nat) ≤ 700 ∧ (40 : Nat) ≤ 40 ∧
    0 ≤ (get_net_rates ⟨100, 40⟩ ⟨700, 40⟩ 2).1 ∧
    0 ≤ (get_net_rates ⟨100, 40⟩ ⟨700, 40⟩ 2).2 :=
  ⟨by norm_num, by norm_num, le_refl 40,
    (net_rates_nonneg_of_monotone ⟨100, 40⟩ ⟨700, 40⟩ 2 (by norm_num)
      (by norm_num) (le_refl 40)).2.2.1,
    (net_rates_nonneg_of_monotone ⟨100, 40⟩ ⟨700, 40⟩ 2 (by norm_num)
      (by norm_num) (le_refl 40)).2.2.2⟩

/-- C4, as stated, is false: `get_cpu_percent` passes the psutil reading
through unclamped, so a reading outside `[0, 100]` is returned as is. -/
theorem cpu_percent_out_of_range_cex :
    ¬(0 ≤ get_cpu_percent 0 150 ∧ get_cpu_percent 0 150 ≤ 100) := by
  norm_num [get_cpu_percent]

/-- C4 (amended): `get_cpu_percent` returns the second psutil reading
unchanged, so its result lies in `[0, 100]` exactly when that reading does. -/
theorem cpu_percent_passthrough (b s : ℚ) :
    get_cpu_percent b s = s ∧
    (0 ≤ s ∧ s ≤ 100 → 0 ≤ get_cpu_percent b s ∧ get_cpu_percent b s ≤ 100) := by
  exact ⟨rfl, fun hs => hs⟩

/-- Witness for `cpu_percent_passthrough` at a concrete in-range reading. -/
theorem cpu_percent_passthrough_witness :
    ((0 : ℚ) ≤ 37 ∧ (37 : ℚ) ≤ 100) ∧
    (0 ≤ get_cpu_percent 12 37 ∧ get_cpu_percent 12 37 ≤ 100) :=
  ⟨by norm_num, (cpu_percent_passthrough 12 37).2 (by norm_num)⟩

/-! ### Claims about the poll loop -/

/-- C3, as stated, is false: with 1.1 s of sampling work the loop still
sleeps the full 5 s interval, not the remaining 3.9 s. -/
theorem tick_sleep_not_remaining_cex :
    tick_sleep (11 / 10) = 5 ∧ tick_sleep (11 / 10) ≠ POLL_SECONDS - 11 / 10 := by
  constructor
  · rfl
  · norm_num [tick_sleep, POLL_SECONDS]

/-- C3 (amended): `winloop.main` sleeps for the full fixed poll interval on
every tick, regardless of the time consumed by sampling and enumeration; the
sleep is never negative, and one tick therefore lasts the work time plus the
whole interval (never the interval minus the work time, unless no work was
done). -/
theorem tick_sleep_constant (w : ℚ) :
    tick_sleep w = POLL_SECONDS ∧ 0 ≤ tick_sleep w ∧
    tick_duration w = w + POLL_SECONDS ∧
    (w ≠ 0 → tick_sleep w ≠ POLL_SECONDS - w) := by
  refine ⟨rfl, by norm_num [tick_sleep, POLL_SECONDS], rfl, ?_⟩
  intro hw hcontra
  apply hw
  have : POLL_SECONDS = POLL_SECONDS - w := hcontra
  linarith [this]

/-- Witness for `tick_sleep_constant` at the spec's 1.1 s scenario. -/
theorem tick_sleep_constant_witness :
    (11 / 10 : ℚ) ≠ 0 ∧ tick_sleep (11 / 10) ≠ POLL_SECONDS - 11 / 10 :=
  ⟨by norm_num, (tick_sleep_constant (11 / 10)).2.2.2 (by norm_num)⟩

/-! ### Claims about the snapshot builder -/

/-- C10: `build_activity_snapshot` substitutes the placeholder exactly when
`get_foreground_title` returns the empty string (which is what happens when
there is no foreground window or the reported title length is `<= 0`); any
non-empty title, including a whitespace-only one, is stored verbatim, with
no trimming. -/
theorem snapshot_title_placeholder (cb cs : ℚ) (c0 c1 : NetCounters) (ns : ℚ)
    (lenv : LastInputEnv) (fenv : ForegroundEnv) (now : ℚ) :
    (fenv.hwnd = none → get_foreground_title fenv = "") ∧
    (fenv.titleLength ≤ 0 → get_foreground_title fenv = "") ∧
    (get_foreground_title fenv = "" →
      (build_activity_snapshot cb cs c0 c1 ns lenv fenv now).foreground_title
        = noTitlePlaceholder) ∧
    (get_foreground_title fenv ≠ "" →
      (build_activity_snapshot cb cs c0 c1 ns lenv fenv now).foreground_title
        = get_foreground_title fenv) := by
  refine ⟨?_, ?_, ?_, ?_⟩
  · intro h
    simp [get_foreground_title, h]
  · intro h
    unfold get_foreground_title
    cases fenv.hwnd with
    | none => rfl
    | some k => rw [if_pos h]
  · intro h
    simp [build_activity_snapshot, pyOrElse, h]
  · intro h
    simp [build_activity_snapshot, pyOrElse, h]

/-- Witness for `snapshot_title_placeholder`: a whitespace-only foreground
title is non-empty and is stored verbatim in the snapshot. -/
theorem snapshot_title_placeholder_witness :
    get_foreground_title ⟨some 1, 3, "   "⟩ ≠ "" ∧
    (build_activity_snapshot 0 0 ⟨0, 0⟩ ⟨0, 0⟩ 1 ⟨true, 0, 0⟩
        ⟨some 1, 3, "   "⟩ 0).foreground_title
      = get_foreground_title ⟨some 1, 3, "   "⟩ :=
  ⟨by decide,
    (snapshot_title_placeholder 0 0 ⟨0, 0⟩ ⟨0, 0⟩ 1 ⟨true, 0, 0⟩
      ⟨some 1, 3, "   "⟩ 0).2.2.2 (by decide)⟩

/-! ### Claims about the window enumerator -/

/-- C5: assuming the OS reports pairwise distinct window handles, a window's
record is in the output of `list_visible_windows` iff the window is flagged
visible and its title is non-empty after stripping whitespace. -/
theorem visible_windows_filter (env : OsEnv) (w : WinState) (hw : w ∈ env.windows)
    (hnd : (env.windows.map WinState.hwnd).Nodup) :
    mkRecord env w ∈ list_visible_windows env
      ↔ (w.visible = true ∧ pyStrip w.title ≠ "") := by
  unfold list_visible_windows
  rw [List.mem_filterMap]
  constructor
  · rintro ⟨w', hw', hsome⟩
    by_cases hc : w'.visible = true ∧ pyStrip w'.title ≠ ""
    · rw [if_pos hc] at hsome
      have hmk : mkRecord env w' = mkRecord env w := Option.some.inj hsome
      have hh : w'.hwnd = w.hwnd := congrArg Prod.fst hmk
      have hww : w' = w := List.inj_on_of_nodup_map hnd hw' hw hh
      rwa [hww] at hc
    · rw [if_neg hc] at hsome
      exact absurd hsome (by simp)
  · intro hc
    exact ⟨w, hw, by rw [if_pos hc]⟩

/-- A concrete three-window OS state: one visible titled window, one visible
window with a whitespace-only title, one invisible window. -/
def env5 : OsEnv :=
  ⟨[⟨1, true, "Editor", 10⟩, ⟨2, true, "   ", 20⟩, ⟨3, false, "Hidden", 30⟩],
    false, fun _ => none, fun _ => none⟩

/-- Witness for `visible_windows_filter` at a visible, titled window. -/
theorem visible_windows_filter_witness :
    ((⟨1, true, "Editor", 10⟩ : WinState) ∈ env5.windows) ∧
    (env5.windows.map WinState.hwnd).Nodup ∧
    (mkRecord env5 ⟨1, true, "Editor", 10⟩ ∈ list_visible_windows env5
      ↔ ((true : Bool) = true ∧ pyStrip "Editor" ≠ "")) :=
  ⟨by decide, by decide,
    visible_windows_filter env5 ⟨1, true, "Editor", 10⟩ (by decide) (by decide)⟩

/-- Whether process-name resolution fails for `pid` in the sense of
`get_process_name`'s three empty-string failure paths: the query API is
absent, `OpenProcess` returns no handle, or the image-name query fails. -/
def resolutionFails (env : OsEnv) (pid : Nat) : Bool :=
  !env.hasQueryFullName ||
    match env.openProcess pid with
    | none => true
    | some hProcess => (env.queryImage hProcess).isNone

/-- On each of its failure paths, `get_process_name` degrades to the empty
string instead of raising. -/
theorem get_process_name_empty_of_fails (env : OsEnv) (pid : Nat)
    (h : resolutionFails env pid = true) : get_process_name env pid = "" := by
  unfold resolutionFails at h
  cases hq : env.hasQueryFullName with
  | false => simp [get_process_name, hq]
  | true =>
    rw [hq] at h
    simp only [Bool.not_true, Bool.false_or] at h
    cases ho : env.openProcess pid with
    | none => simp [get_process_name, hq, ho]
    | some hp =>
      rw [ho] at h
      simp only [Option.isNone_iff_eq_none] at h
      simp [get_process_name, hq, ho, h]

/-- `list_visible_windows` is the surviving windows, in order, mapped to
their records. -/
theorem list_visible_windows_eq (env : OsEnv) :
    list_visible_windows env
      = (env.windows.filter fun w =>
          decide (w.visible = true ∧ pyStrip w.title ≠ "")).map (mkRecord env) := by
  unfold list_visible_windows
  induction env.windows with
  | nil => rfl
  | cons a l ih =>
    by_cases hc : a.visible = true ∧ pyStrip a.title ≠ ""
    · simp only [List.filterMap_cons, List.filter_cons, if_pos hc,
        decide_eq_true_eq, List.map_cons, ih]
    · simp only [List.filterMap_cons, List.filter_cons, if_neg hc,
        decide_eq_true_eq, ih]

/-- C6: assuming every successful image-name query yields a non-empty name,
`list_visible_windows` returns one record per surviving window, and a record
carries an empty `process_name` exactly when resolution failed for its pid;
no failure propagates out of the enumeration. -/
theorem visible_windows_partial_failure (env : OsEnv)
    (hgood : ∀ w ∈ env.windows, resolutionFails env w.pid = false →
      get_process_name env w.pid ≠ "") :
    (list_visible_windows env).length
      = (env.windows.filter fun w =>
          decide (w.visible = true ∧ pyStrip w.title ≠ "")).length ∧
    ∀ r ∈ list_visible_windows env,
      (r.2.2.2 = "" ↔ resolutionFails env r.2.2.1 = true) := by
  refine ⟨by rw [list_visible_windows_eq]; simp, ?_⟩
  intro r hr
  rw [list_visible_windows_eq] at hr
  obtain ⟨w, hwf, hmk⟩ := List.mem_map.mp hr
  have hwmem : w ∈ env.windows := List.mem_of_mem_filter hwf
  rw [← hmk]
  show get_process_name env w.pid = "" ↔ resolutionFails env w.pid = true
  constructor
  · intro he
    cases hf : resolutionFails env w.pid with
    | true => rfl
    | false => exact absurd he (hgood w hwmem hf)
  · exact get_process_name_empty_of_fails env w.pid

/-- A concrete OS state with three visible titled windows in which
`OpenProcess` is denied for exactly the middle window's pid. -/
def env6 : OsEnv :=
  ⟨[⟨1, true, "Alpha", 10⟩, ⟨2, true, "Beta", 20⟩, ⟨3, true, "Gamma", 30⟩],
    true,
    (fun pid => if pid = 10 then some 100 else if pid = 30 then some 300 else none),
    (fun h => if h = 100 then some "C:\\apps\\alpha.exe"
      else if h = 300 then some "C:\\apps\\gamma.exe" else none)⟩

/-- Witness for `visible_windows_partial_failure`: with resolution denied for
one pid among three enumerated windows, the result has 3 records of which
exactly one has an empty process name. -/
theorem visible_windows_partial_failure_witness :
    (list_visible_windows env6).length = 3 ∧
    ((list_visible_windows env6).filter fun r => r.2.2.2 == "").length = 1 ∧
    ∀ r ∈ list_visible_windows env6,
      (r.2.2.2 = "" ↔ resolutionFails env6 r.2.2.1 = true) :=
  ⟨by decide, by decide, (visible_windows_partial_failure env6 (by decide)).2⟩

/-- The traced and untraced embeddings of `get_process_name` agree on the
returned name. -/
theorem get_process_name_events_fst (env : OsEnv) (pid : Nat) :
    (get_process_name_events env pid).1 = get_process_name env pid := by
  unfold get_process_name_events get_process_name
  cases hq : env.hasQueryFullName with
  | false => rfl
  | true =>
    cases ho : env.openProcess pid with
    | none => rfl
    | some hp => rfl

/-- C8: on every path of `get_process_name` on which `OpenProcess` returned a
handle — the query-failure and empty-path paths included — that handle is
closed before the function returns, so the event trace is exactly an open
followed by the matching close. -/
theorem process_handle_closed (env : OsEnv) (pid hp : Nat)
    (hq : env.hasQueryFullName = true) (ho : env.openProcess pid = some hp) :
    (get_process_name_events env pid).2 = [HEvent.opened hp, HEvent.closed hp] ∧
    HEvent.closed hp ∈ (get_process_name_events env pid).2 := by
  have h2 : (get_process_name_events env pid).2
      = [HEvent.opened hp, HEvent.closed hp] := by
    unfold get_process_name_events
    rw [hq, ho]
    rfl
  refine ⟨h2, ?_⟩
  rw [h2]
  simp

/-- A one-window OS state in which `OpenProcess` succeeds but the image-name
query fails, exercising the failure path of the `try` body. -/
def env8 : OsEnv :=
  ⟨[⟨1, true, "Shell", 44⟩], true,
    (fun pid => if pid = 44 then some 555 else none),
    (fun _ => none)⟩

/-- Witness for `process_handle_closed`: the handle opened for pid 44 is
closed even though the image-name query fails. -/
theorem process_handle_closed_witness :
    env8.hasQueryFullName = true ∧ env8.openProcess 44 = some 555 ∧
    (get_process_name_events env8 44).2
      = [HEvent.opened 555, HEvent.closed 555] ∧
    HEvent.closed 555 ∈ (get_process_name_events env8 44).2 :=
  ⟨rfl, by decide, (process_handle_closed env8 44 555 rfl (by decide)).1,
    (process_handle_closed env8 44 555 rfl (by decide)).2⟩

/-- `get_process_name` depends on the OS state only through the query API's
presence and the two resolution functions. -/
theorem get_process_name_congr (env1 env2 : OsEnv)
    (hq : env1.hasQueryFullName = env2.hasQueryFullName)
    (ho : env1.openProcess = env2.openProcess)
    (hi : env1.queryImage = env2.queryImage) (pid : Nat) :
    get_process_name env1 pid = get_process_name env2 pid := by
  unfold get_process_name
  rw [hq, ho, hi]

/-- C9: two enumeration passes over the same OS window state — the same
windows (possibly reported in a different order) and the same resolution
behaviour — produce results that are permutations of each other, hence equal
as sets of records. -/
theorem visible_windows_set_stable (env1 env2 : OsEnv)
    (hperm : env1.windows.Perm env2.windows)
    (hq : env1.hasQueryFullName = env2.hasQueryFullName)
    (ho : env1.openProcess = env2.openProcess)
    (hi : env1.queryImage = env2.queryImage) :
    (list_visible_windows env1).Perm (list_visible_windows env2) ∧
    ∀ r, r ∈ list_visible_windows env1 ↔ r ∈ list_visible_windows env2 := by
  have hfun : (fun w => if w.visible = true ∧ pyStrip w.title ≠ ""
        then some (mkRecord env1 w) else none)
      = (fun w => if w.visible = true ∧ pyStrip w.title ≠ ""
        then some (mkRecord env2 w) else none) := by
    funext w
    unfold mkRecord
    rw [get_process_name_congr env1 env2 hq ho hi]
  have hp : (list_visible_windows env1).Perm (list_visible_windows env2) := by
    unfold list_visible_windows
    rw [hfun]
    exact hperm.filterMap _
  exact ⟨hp, fun r => hp.mem_iff⟩

/-- First window of the C9 witness state. -/
def w9a : WinState := ⟨1, true, "Mail", 10⟩

/-- Second window of the C9 witness state. -/
def w9b : WinState := ⟨2, true, "Files", 20⟩

/-- Shared `OpenProcess` behaviour of the C9 witness states. -/
def open9 : Nat → Option Nat := fun pid => if pid = 10 then some 101 else none

/-- Shared image-name query behaviour of the C9 witness states. -/
def query9 : Nat → Option String :=
  fun h => if h = 101 then some "C:\\m\\mail.exe" else none

/-- The first enumeration pass of the C9 witness. -/
def env9a : OsEnv := ⟨[w9a, w9b], true, open9, query9⟩

/-- The second enumeration pass of the C9 witness: same state, windows
reported in the opposite order. -/
def env9b : OsEnv := ⟨[w9b, w9a], true, open9, query9⟩

/-- Witness for `visible_windows_set_stable` on two concrete passes. -/
theorem visible_windows_set_stable_witness :
    env9a.windows.Perm env9b.windows ∧
    ((list_visible_windows env9a).Perm (list_visible_windows env9b) ∧
      ∀ r, r ∈ list_visible_windows env9a ↔ r ∈ list_visible_windows env9b) :=
  ⟨List.Perm.swap w9b w9a [],
    visible_windows_set_stable env9a env9b (List.Perm.swap w9b w9a []) rfl rfl rfl⟩
